import Mathlib

/-!
Verification of the composition root in src/App.tsx of the Payment_Wall
repository: the route table, the conditional camera-preview overlay
selector, the provider nesting, and the module-level query-client
singleton, embedded shallowly as Lean definitions with theorems about
their behaviour.
-/

namespace PaymentWall

/-- A browser location as exposed by the router to components: the
pathname together with the query string and the hash fragment that
accompany it. -/
structure Location where
  pathname : String
  search : String
  hash : String
  deriving DecidableEq, Repr

/-- Router state threaded through hook calls during a render: the current
location plus the navigation history entries behind it. -/
structure RouterState where
  location : Location
  history : List Location
  deriving DecidableEq, Repr

/-- The useLocation hook of react-router-dom as used in src/App.tsx: it
reads the current location out of the router state and leaves the state
untouched. -/
def useLocation (s : RouterState) : Location × RouterState :=
  (s.location, s)

/-- What the ConditionalCameraPreview component can render: nothing
(null) or the CameraPreview overlay component. -/
inductive OverlayRender where
  | null
  | cameraPreview
  deriving DecidableEq, Repr

/-- The ConditionalCameraPreview component of src/App.tsx (lines 20-34)
as a state-passing render function: it calls useLocation, returns null
when the pathname equals "/document-upload", "/" or "/loan-status", and
returns the CameraPreview overlay otherwise. The returned state is the
router state after the render. -/
def ConditionalCameraPreviewRun (s : RouterState) : OverlayRender × RouterState :=
  let location := (useLocation s).1
  let s1 := (useLocation s).2
  if location.pathname = "/document-upload" ∨
     location.pathname = "/" ∨
     location.pathname = "/loan-status" then
    (OverlayRender.null, s1)
  else
    (OverlayRender.cameraPreview, s1)

/-- The overlay decision of ConditionalCameraPreview as a function of the
location alone. -/
def ConditionalCameraPreview (location : Location) : OverlayRender :=
  (ConditionalCameraPreviewRun { location := location, history := [] }).1

/-- The page components imported and routed by src/App.tsx. -/
inductive PageComponent where
  | index
  | login
  | questionnaire
  | documentUpload
  | loanStatus
  | notFound
  deriving DecidableEq, Repr

/-- One Route element of the Routes block: a path and the page
component element it renders. -/
structure RouteEntry where
  path : String
  element : PageComponent
  deriving DecidableEq, Repr

/-- The Routes block of src/App.tsx (lines 44-52), in declaration
order, the catch-all star route last. -/
def routeTable : List RouteEntry :=
  [ { path := "/", element := PageComponent.index },
    { path := "/login", element := PageComponent.login },
    { path := "/questionnaire", element := PageComponent.questionnaire },
    { path := "/document-upload", element := PageComponent.documentUpload },
    { path := "/loan-status", element := PageComponent.loanStatus },
    { path := "*", element := PageComponent.notFound } ]

/-- Whether a route path pattern matches a concrete pathname: the star
pattern matches every pathname, a literal pattern matches by string
equality. -/
def routeMatches (pat : String) (path : String) : Bool :=
  pat == "*" || pat == path

/-- Route dispatch: the element of the first entry of the route table
whose path matches the given pathname. -/
def dispatch (path : String) : Option PageComponent :=
  (routeTable.find? fun r => routeMatches r.path path).map RouteEntry.element

/-- A query client instance, identified by the allocation that created
it. -/
structure QueryClient where
  id : Nat
  deriving DecidableEq, Repr

/-- Allocating a new QueryClient: the fresh instance carries the current
allocation counter, which is then advanced. -/
def newQueryClient (alloc : Nat) : QueryClient × Nat :=
  ({ id := alloc }, alloc + 1)

/-- Module-level evaluation of src/App.tsx line 17: the single statement
`const queryClient = new QueryClient()` runs once, before any component
mounts, performing exactly one allocation. -/
def moduleEval (alloc : Nat) : QueryClient × Nat :=
  newQueryClient alloc

/-- The module-level queryClient constant of src/App.tsx line 17. -/
def queryClient : QueryClient :=
  (moduleEval 0).1

/-- Nodes of the rendered element tree of App. -/
inductive Node where
  | queryClientProvider (client : QueryClient) (children : List Node)
  | tooltipProvider (children : List Node)
  | toaster
  | sonner
  | browserRouter (children : List Node)
  | authProvider (children : List Node)
  | loanProvider (children : List Node)
  | routes (table : List RouteEntry) (page : Option PageComponent)
  | overlay (rendered : OverlayRender)

/-- Constructor tags of rendered tree nodes, used to talk about the
shape of the tree independently of node payloads. -/
inductive NodeTag where
  | queryClientProviderTag
  | tooltipProviderTag
  | toasterTag
  | sonnerTag
  | browserRouterTag
  | authProviderTag
  | loanProviderTag
  | routesTag
  | overlayTag
  deriving DecidableEq, Repr

/-- The tag of a rendered tree node. -/
def tagOf : Node → NodeTag
  | Node.queryClientProvider _ _ => NodeTag.queryClientProviderTag
  | Node.tooltipProvider _ => NodeTag.tooltipProviderTag
  | Node.toaster => NodeTag.toasterTag
  | Node.sonner => NodeTag.sonnerTag
  | Node.browserRouter _ => NodeTag.browserRouterTag
  | Node.authProvider _ => NodeTag.authProviderTag
  | Node.loanProvider _ => NodeTag.loanProviderTag
  | Node.routes _ _ => NodeTag.routesTag
  | Node.overlay _ => NodeTag.overlayTag

mutual

/-- The tags of the strict ancestors, outer to inner, of the first node
carrying the given tag in the tree, or none when no node carries it. -/
def chainTo (t : NodeTag) : Node → Option (List NodeTag)
  | Node.queryClientProvider _ cs =>
      if t = NodeTag.queryClientProviderTag then some []
      else (chainToList t cs).map (fun l => NodeTag.queryClientProviderTag :: l)
  | Node.tooltipProvider cs =>
      if t = NodeTag.tooltipProviderTag then some []
      else (chainToList t cs).map (fun l => NodeTag.tooltipProviderTag :: l)
  | Node.toaster => if t = NodeTag.toasterTag then some [] else none
  | Node.sonner => if t = NodeTag.sonnerTag then some [] else none
  | Node.browserRouter cs =>
      if t = NodeTag.browserRouterTag then some []
      else (chainToList t cs).map (fun l => NodeTag.browserRouterTag :: l)
  | Node.authProvider cs =>
      if t = NodeTag.authProviderTag then some []
      else (chainToList t cs).map (fun l => NodeTag.authProviderTag :: l)
  | Node.loanProvider cs =>
      if t = NodeTag.loanProviderTag then some []
      else (chainToList t cs).map (fun l => NodeTag.loanProviderTag :: l)
  | Node.routes _ _ => if t = NodeTag.routesTag then some [] else none
  | Node.overlay _ => if t = NodeTag.overlayTag then some [] else none

/-- chainTo over a list of sibling nodes, first hit wins. -/
def chainToList (t : NodeTag) : List Node → Option (List NodeTag)
  | [] => none
  | c :: cs =>
      match chainTo t c with
      | some l => some l
      | none => chainToList t cs

end

/-- The App component of src/App.tsx (lines 36-59) rendered at a given
location: the provider stack wrapping the Routes block (already
dispatched at the current pathname) and the ConditionalCameraPreview
overlay. -/
def AppRender (loc : Location) : Node :=
  Node.queryClientProvider queryClient
    [ Node.tooltipProvider
        [ Node.toaster,
          Node.sonner,
          Node.browserRouter
            [ Node.authProvider
                [ Node.loanProvider
                    [ Node.routes routeTable (dispatch loc.pathname),
                      Node.overlay (ConditionalCameraPreview loc) ] ] ] ] ]

/-- The client passed to the data-cache provider at the root of a
rendered tree. -/
def rootClient : Node → Option QueryClient
  | Node.queryClientProvider c _ => some c
  | _ => none

/-- Claim C1: for every path in the exclusion set, the pathnames
"/document-upload", "/" and "/loan-status", the conditional overlay
selector decides hidden, returning no overlay (null). -/
theorem C1_excluded_paths_hidden (loc : Location)
    (h : loc.pathname = "/document-upload" ∨ loc.pathname = "/" ∨
         loc.pathname = "/loan-status") :
    ConditionalCameraPreview loc = OverlayRender.null := by
  simp [ConditionalCameraPreview, ConditionalCameraPreviewRun, useLocation, h]

/-- Witness for C1 at the root path. -/
theorem C1_excluded_paths_hidden_witness :
    ConditionalCameraPreview { pathname := "/", search := "", hash := "" } =
      OverlayRender.null :=
  C1_excluded_paths_hidden { pathname := "/", search := "", hash := "" }
    (Or.inr (Or.inl rfl))

/-- Claim C2: for every path not in the exclusion set, including
"/login", "/questionnaire" and arbitrary unmatched strings such as
"/xyz", the conditional overlay selector decides shown, returning the
camera overlay component. -/
theorem C2_other_paths_shown (loc : Location)
    (h1 : loc.pathname ≠ "/document-upload") (h2 : loc.pathname ≠ "/")
    (h3 : loc.pathname ≠ "/loan-status") :
    ConditionalCameraPreview loc = OverlayRender.cameraPreview := by
  simp [ConditionalCameraPreview, ConditionalCameraPreviewRun, useLocation,
    h1, h2, h3]

/-- Witness for C2 at the arbitrary unmatched path "/xyz". -/
theorem C2_other_paths_shown_witness :
    ConditionalCameraPreview { pathname := "/xyz", search := "", hash := "" } =
      OverlayRender.cameraPreview :=
  C2_other_paths_shown { pathname := "/xyz", search := "", hash := "" }
    (by decide) (by decide) (by decide)

/-- Claim C3: membership in the exclusion set is exact string equality on
the whole pathname: the selector hides the overlay exactly when the
pathname equals one of the three excluded strings, so a path differing
only by a trailing slash or by letter case, such as "/loan-status/" or
"/DOCUMENT-UPLOAD", is shown. -/
theorem C3_exact_string_equality :
    (∀ loc : Location,
        ConditionalCameraPreview loc = OverlayRender.null ↔
          (loc.pathname = "/document-upload" ∨ loc.pathname = "/" ∨
           loc.pathname = "/loan-status")) ∧
    ConditionalCameraPreview
        { pathname := "/loan-status/", search := "", hash := "" } =
      OverlayRender.cameraPreview ∧
    ConditionalCameraPreview
        { pathname := "/DOCUMENT-UPLOAD", search := "", hash := "" } =
      OverlayRender.cameraPreview := by
  refine ⟨fun loc => ?_, by decide, by decide⟩
  unfold ConditionalCameraPreview ConditionalCameraPreviewRun useLocation
  dsimp only
  split <;> simp_all

/-- Claim C4: the conditional overlay selector is total over all string
inputs: every location, the empty pathname included, gets one of the two
decisions without error, and every pathname outside the exclusion set,
the empty string among them, falls through to the render-overlay
branch. -/
theorem C4_selector_total (loc : Location) :
    (ConditionalCameraPreview loc = OverlayRender.null ∨
     ConditionalCameraPreview loc = OverlayRender.cameraPreview) ∧
    (loc.pathname ∉ ["/document-upload", "/", "/loan-status"] →
      ConditionalCameraPreview loc = OverlayRender.cameraPreview) := by
  constructor
  · cases h : ConditionalCameraPreview loc
    · exact Or.inl rfl
    · exact Or.inr rfl
  · intro h
    simp only [List.mem_cons, List.not_mem_nil, or_false, not_or] at h
    exact C2_other_paths_shown loc h.1 h.2.1 h.2.2

/-- Witness for C4 at the empty pathname. -/
theorem C4_selector_total_witness :
    ConditionalCameraPreview { pathname := "", search := "", hash := "" } =
      OverlayRender.cameraPreview :=
  (C4_selector_total { pathname := "", search := "", hash := "" }).2 (by decide)

/-- Claim C5: the route table dispatches every path to exactly one page:
each of the five static literal paths maps to its page, the catch-all
star entry is declared last and is the only catch-all, and every path
matching none of the five static routes dispatches to the NotFound
fallback page rather than failing. -/
theorem C5_route_dispatch :
    (dispatch "/" = some PageComponent.index ∧
     dispatch "/login" = some PageComponent.login ∧
     dispatch "/questionnaire" = some PageComponent.questionnaire ∧
     dispatch "/document-upload" = some PageComponent.documentUpload ∧
     dispatch "/loan-status" = some PageComponent.loanStatus) ∧
    (routeTable.getLast? =
        some { path := "*", element := PageComponent.notFound } ∧
     ∀ r ∈ routeTable.dropLast, r.path ≠ "*") ∧
    (∀ p : String, p ≠ "/" → p ≠ "/login" → p ≠ "/questionnaire" →
        p ≠ "/document-upload" → p ≠ "/loan-status" →
        dispatch p = some PageComponent.notFound) := by
  refine ⟨by decide, by decide, fun p h1 h2 h3 h4 h5 => ?_⟩
  have e1 : ("/" == p) = false := beq_eq_false_iff_ne.mpr (Ne.symm h1)
  have e2 : ("/login" == p) = false := beq_eq_false_iff_ne.mpr (Ne.symm h2)
  have e3 : ("/questionnaire" == p) = false := beq_eq_false_iff_ne.mpr (Ne.symm h3)
  have e4 : ("/document-upload" == p) = false := beq_eq_false_iff_ne.mpr (Ne.symm h4)
  have e5 : ("/loan-status" == p) = false := beq_eq_false_iff_ne.mpr (Ne.symm h5)
  simp [dispatch, routeTable, routeMatches, List.find?, e1, e2, e3, e4, e5]

/-- Witness for C5 at the unmatched path "/xyz". -/
theorem C5_route_dispatch_witness :
    dispatch "/xyz" = some PageComponent.notFound :=
  C5_route_dispatch.2.2 "/xyz" (by decide) (by decide) (by decide)
    (by decide) (by decide)

/-- Claim C6: at "/" the route table dispatches the Index landing page
and the overlay is absent; at "/questionnaire" it dispatches the
Questionnaire page and the overlay is present, whatever the query string
and hash fragment. -/
theorem C6_index_and_questionnaire : ∀ s h : String,
    dispatch "/" = some PageComponent.index ∧
    ConditionalCameraPreview { pathname := "/", search := s, hash := h } =
      OverlayRender.null ∧
    dispatch "/questionnaire" = some PageComponent.questionnaire ∧
    ConditionalCameraPreview
        { pathname := "/questionnaire", search := s, hash := h } =
      OverlayRender.cameraPreview := by
  intro s h
  refine ⟨by decide, ?_, by decide, ?_⟩ <;>
    simp [ConditionalCameraPreview, ConditionalCameraPreviewRun, useLocation]

/-- Claim C7: whatever the location, the rendered App tree nests the
providers in the fixed outer-to-inner order query-client provider,
tooltip provider, browser router, auth provider, loan provider, and that
full stack is the ancestor chain of both the Routes table and the
conditional overlay. -/
theorem C7_provider_nesting : ∀ loc : Location,
    chainTo NodeTag.routesTag (AppRender loc) =
      some [NodeTag.queryClientProviderTag, NodeTag.tooltipProviderTag,
            NodeTag.browserRouterTag, NodeTag.authProviderTag,
            NodeTag.loanProviderTag] ∧
    chainTo NodeTag.overlayTag (AppRender loc) =
      some [NodeTag.queryClientProviderTag, NodeTag.tooltipProviderTag,
            NodeTag.browserRouterTag, NodeTag.authProviderTag,
            NodeTag.loanProviderTag] := by
  intro loc
  constructor <;> simp [AppRender, chainTo, chainToList]

/-- Claim C8: module evaluation performs exactly one QueryClient
allocation, and the client handed to the data-cache provider at the root
of the rendered tree is that module-level instance, identical across any
two renders, in particular across the two renders either side of a
navigation change. -/
theorem C8_single_query_client :
    (∀ a : Nat, (moduleEval a).2 = a + 1) ∧
    (∀ loc1 loc2 : Location,
        rootClient (AppRender loc1) = rootClient (AppRender loc2)) ∧
    (∀ loc : Location, rootClient (AppRender loc) = some queryClient) := by
  refine ⟨fun a => rfl, fun loc1 loc2 => rfl, fun loc => rfl⟩

/-- Claim C9: the conditional overlay selector is pure and
deterministic: a render leaves the router state exactly as it found it,
and any two evaluations seeing the same current pathname produce the
same decision, whatever else differs in the router state. -/
theorem C9_pure_deterministic :
    (∀ s : RouterState, (ConditionalCameraPreviewRun s).2 = s) ∧
    (∀ s1 s2 : RouterState,
        s1.location.pathname = s2.location.pathname →
        (ConditionalCameraPreviewRun s1).1 = (ConditionalCameraPreviewRun s2).1) := by
  constructor
  · intro s
    unfold ConditionalCameraPreviewRun useLocation
    dsimp only
    split <;> rfl
  · intro s1 s2 h
    unfold ConditionalCameraPreviewRun useLocation
    dsimp only
    rw [h]
    by_cases hc : s2.location.pathname = "/document-upload" ∨
        s2.location.pathname = "/" ∨ s2.location.pathname = "/loan-status"
    · simp [hc]
    · simp [hc]

/-- Witness for C9: two router states with the same current pathname but
different query strings, hash fragments and histories yield the same
decision. -/
theorem C9_pure_deterministic_witness :
    (ConditionalCameraPreviewRun
        { location := { pathname := "/login", search := "", hash := "" },
          history := [] }).1 =
    (ConditionalCameraPreviewRun
        { location := { pathname := "/login", search := "?a=1", hash := "#x" },
          history := [{ pathname := "/", search := "", hash := "" }] }).1 :=
  C9_pure_deterministic.2
    { location := { pathname := "/login", search := "", hash := "" },
      history := [] }
    { location := { pathname := "/login", search := "?a=1", hash := "#x" },
      history := [{ pathname := "/", search := "", hash := "" }] }
    rfl

/-- Claim C10: the overlay decision depends only on the pathname: two
locations with equal pathnames but arbitrary query strings and hash
fragments get the same decision. -/
theorem C10_pathname_only (loc1 loc2 : Location)
    (h : loc1.pathname = loc2.pathname) :
    ConditionalCameraPreview loc1 = ConditionalCameraPreview loc2 := by
  unfold ConditionalCameraPreview ConditionalCameraPreviewRun useLocation
  dsimp only
  rw [h]
  by_cases hc : loc2.pathname = "/document-upload" ∨ loc2.pathname = "/" ∨
      loc2.pathname = "/loan-status"
  · simp [hc]
  · simp [hc]

/-- Witness for C10: same pathname, different query string and hash. -/
theorem C10_pathname_only_witness :
    ConditionalCameraPreview
        { pathname := "/login", search := "?a=1", hash := "#top" } =
    ConditionalCameraPreview
        { pathname := "/login", search := "?b=2", hash := "#bottom" } :=
  C10_pathname_only
    { pathname := "/login", search := "?a=1", hash := "#top" }
    { pathname := "/login", search := "?b=2", hash := "#bottom" }
    rfl

end PaymentWall
